import Mathlib

/-!
Shallow embedding of the KIRO alt-text MCP servers.

Two variants exist in the repository:
- `mcp-servers/alt-text-generator/simple_server.py` — a minimal hand-rolled
  JSON-RPC dispatcher (`SimpleAltTextServer`) with one tool.
- `mcp-servers/alt-text-generator/server.py` — the richer MCP server
  (`AltTextGenerator` plus `handle_call_tool`) with three tools.

Python dictionaries with known keys become structures with `Option` fields
(`none` meaning the key is absent); `dict.get(k, d)` becomes `Option.getD`.
Python floats appearing here (confidence values, quality scores) only ever
arise from literals, a single division by 50, and `min` against 1.0, all of
which are exact in rationals, so scores are modelled as `Rat`.
-/

namespace AltText

/-- Checks whether the first list is a leading segment of the second;
used to build the substring test below. -/
def listIsPre : List Char → List Char → Bool
  | [], _ => true
  | _ :: _, [] => false
  | a :: as, b :: bs => a == b && listIsPre as bs

/-- Contiguous-substring test on character lists: models the Python
operator `needle in hay` on strings. -/
def listHasSub (needle : List Char) : List Char → Bool
  | [] => needle.isEmpty
  | hay@(_ :: t) => listIsPre needle hay || listHasSub needle t

/-- Models Python `needle in hay` for strings. -/
def strHasSub (needle hay : String) : Bool :=
  listHasSub needle.data hay.data

/-- Python's builtin `min` on two numbers: the first argument when it is
less than or equal to the second, the second otherwise. -/
def pymin (a b : Rat) : Rat := if a ≤ b then a else b

/-- Models Python `str.lower()` character by character (the strings the
code compares are ASCII, where the two agree). -/
def strToLower (s : String) : String := ⟨s.data.map Char.toLower⟩

/-- Models Python `s.startswith(pre)`. -/
def strStarts (s pre : String) : Bool := listIsPre pre.data s.data

/-- Models Python `s.strip()`: drops leading and trailing whitespace. -/
def strStrip (s : String) : String :=
  ⟨((s.data.dropWhile Char.isWhitespace).reverse.dropWhile Char.isWhitespace).reverse⟩

/-- One alt-text suggestion record, as built by both servers:
`{type, text, length, confidence}`. The `length` field is stored verbatim
from the source fixtures, not derived. -/
structure AltTextSuggestion where
  type : String
  text : String
  length : Nat
  confidence : Rat
  deriving Repr, DecidableEq

/-- The page context dictionary passed in tool arguments
(`context.get("page_title", "")`, `context.get("page_topic", "general")`).
`none` models an absent key. -/
structure PageContext where
  page_title : Option String
  page_topic : Option String
  deriving Repr, DecidableEq

/-- Arguments of the generate_alt_text tool: `image_data` and `context`,
each possibly absent (`arguments.get(...)` with defaults). -/
structure GenArguments where
  image_data : Option String
  context : Option PageContext
  deriving Repr, DecidableEq

/-- The `accessibility_analysis` block both servers return. The rich server
additionally has a `wcag_considerations` key; the minimal server's dict does
not, so that key is optional here. -/
structure AccessibilityAnalysis where
  is_decorative : Bool
  contains_text : Bool
  complexity_level : String
  recommended_approach : String
  wcag_considerations : Option (List String)
  deriving Repr, DecidableEq

/-- Result dictionary of `SimpleAltTextServer.generate_alt_text` (and of the
success path of `AltTextGenerator.analyze_image`): on failure the servers
instead set `success := false` and fill `error`. -/
structure AnalysisResult where
  success : Bool
  error : Option String
  alt_suggestions : List AltTextSuggestion
  accessibility_analysis : Option AccessibilityAnalysis
  context_used : Option PageContext
  deriving Repr, DecidableEq

/-- The product-themed fixture set of simple_server.py, lines 105-124,
with the hardcoded `length` values copied verbatim. -/
def productSuggestions : List AltTextSuggestion :=
  [ { type := "brief",
      text := "Product image showing key features",
      length := 35, confidence := 85/100 },
    { type := "moderate",
      text := "Detailed product photo highlighting main functionality and design",
      length := 65, confidence := 90/100 },
    { type := "detailed",
      text := "High-quality product photograph showcasing design, features, and build quality in professional lighting setup",
      length := 115, confidence := 88/100 } ]

/-- The generic fixture set of simple_server.py, lines 126-145. -/
def genericSuggestions : List AltTextSuggestion :=
  [ { type := "brief",
      text := "Descriptive image relevant to page content",
      length := 42, confidence := 80/100 },
    { type := "moderate",
      text := "Detailed visual content supporting the main page topic and user context",
      length := 75, confidence := 85/100 },
    { type := "detailed",
      text := "Comprehensive visual description including key elements, composition, and contextual relevance to surrounding content",
      length := 125, confidence := 82/100 } ]

/-- The branching condition of simple_server.py line 104:
`"product" in page_title.lower() or page_topic == "ecommerce"`
after the defaults of lines 98-99 are applied. -/
def productSignal (context : PageContext) : Bool :=
  strHasSub "product" (strToLower (context.page_title.getD ""))
    || (context.page_topic.getD "general") == "ecommerce"

/-- `SimpleAltTextServer.generate_alt_text`, simple_server.py lines 92-157.
`image_data` is read but never used by the body, exactly as in the source. -/
def generate_alt_text (arguments : GenArguments) : AnalysisResult :=
  let context := arguments.context.getD ⟨none, none⟩
  let suggestions :=
    if productSignal context then productSuggestions else genericSuggestions
  { success := true
    error := none
    alt_suggestions := suggestions
    accessibility_analysis := some
      { is_decorative := false, contains_text := false
        complexity_level := "moderate", recommended_approach := "descriptive"
        wcag_considerations := none }
    context_used := some context }

/-- A JSON-RPC id: the client may send a number or a string. -/
inductive JsonId where
  | num (n : Int)
  | str (s : String)
  deriving Repr, DecidableEq

/-- `params` of a `tools/call` request: `params.get("name")` and
`params.get("arguments", {})`. -/
structure CallParams where
  name : Option String
  arguments : Option GenArguments
  deriving Repr, DecidableEq

/-- A parsed incoming message of the minimal server: `message.get("method")`,
`message.get("id")`, `message.get("params", {})`. -/
structure Message where
  id : Option JsonId
  method : Option String
  params : Option CallParams
  deriving Repr, DecidableEq

/-- A tool descriptor of the registry: name, description, and the
`required` list of its declared input schema. -/
structure ToolDescriptor where
  name : String
  description : String
  required : List String
  deriving Repr, DecidableEq

/-- The three result shapes the minimal server can place under `"result"`.
The source serializes the tool payload to a JSON string inside
`content = [{type: "text", text: json.dumps(payload)}]`; the embedding keeps
the payload structurally inside that envelope. -/
inductive RpcResult where
  | initResult (protocolVersion serverName serverVersion : String)
  | toolsList (tools : List ToolDescriptor)
  | callResult (payload : AnalysisResult)
  deriving Repr, DecidableEq

/-- A JSON-RPC error body `{code, message}`. -/
structure ErrorBody where
  code : Int
  message : String
  deriving Repr, DecidableEq

/-- An emitted response dictionary. The source builds either a `"result"` key
or an `"error"` key; both are modelled as options so that their mutual
exclusion is a provable property, not a typing artifact. -/
structure Response where
  id : Option JsonId
  result : Option RpcResult
  error : Option ErrorBody
  deriving Repr, DecidableEq

/-- How a Python f-string renders `message.get("method")`: an absent key is
the value `None`, printed as "None". -/
def methodText : Option String → String
  | none => "None"
  | some s => s

/-- The tool registry of the minimal server,
`SimpleAltTextServer.__init__`, simple_server.py lines 19-32. -/
def simpleTools : List ToolDescriptor :=
  [ { name := "generate_alt_text"
      description := "Generate descriptive alt text options for images"
      required := ["image_data"] } ]

/-- `SimpleAltTextServer.handle_message`, simple_server.py lines 34-90. -/
def handle_message (message : Message) : Response :=
  let msg_id := message.id
  if message.method == some "initialize" then
    { id := msg_id
      result := some (.initResult "2024-11-05" "alt-text-generator" "1.0.0")
      error := none }
  else if message.method == some "tools/list" then
    { id := msg_id, result := some (.toolsList simpleTools), error := none }
  else if message.method == some "tools/call" then
    let params := message.params.getD ⟨none, none⟩
    let arguments := params.arguments.getD ⟨none, none⟩
    if params.name == some "generate_alt_text" then
      { id := msg_id
        result := some (.callResult (generate_alt_text arguments))
        error := none }
    else
      { id := msg_id, result := none
        error := some ⟨-32601, "Method not found: " ++ methodText message.method⟩ }
  else
    { id := msg_id, result := none
      error := some ⟨-32601, "Method not found: " ++ methodText message.method⟩ }

/-! Embedding of the rich server, `mcp-servers/alt-text-generator/server.py`.
The network fetch and the base64 codec are external effects; they enter the
embedding as explicit parameters (an `Except` fetch outcome and
encode/decode functions), with an error value standing for any exception
the corresponding Python call could raise. -/

/-- `AltTextGenerator.supported_formats`, server.py line 28. -/
def supported_formats : List String := ["jpeg", "jpg", "png", "gif", "webp"]

/-- An HTTP response as seen by `_process_image_url`: status code, declared
content-type header (absent header models as the default `""` of
`headers.get('content-type', '')`), and body bytes. -/
structure HttpContent where
  status : Nat
  content_type : String
  content : List Nat
  deriving Repr, DecidableEq

/-- `AltTextGenerator._process_image_url`, server.py lines 68-88.
`fetch` is the outcome of `client.get(url, timeout=10.0)`: `.error` stands
for any raised exception (connection fault, timeout, ...), which the
source's blanket `except` turns into `None`. `response.raise_for_status()`
raises exactly when the status code is 4xx/5xx, also caught. `enc` is
`base64.b64encode(...).decode('utf-8')`. -/
def process_image_url (fetch : Except String HttpContent)
    (enc : List Nat → String) : Option String :=
  match fetch with
  | .error _ => none
  | .ok r =>
    if 400 ≤ r.status then none
    else if ! supported_formats.any (fun fmt => strHasSub fmt r.content_type) then
      none
    else if r.content.length > 5 * 1024 * 1024 then none
    else some (enc r.content)

/-- `AltTextGenerator._process_base64_image`, server.py lines 90-108.
`decode` is `base64.b64decode`; `none` stands for the decode raising, which
the source's `except` turns into `None`. A `data:` prefix is stripped by
`split(',')[1]`; when no comma exists that indexing raises (caught → None). -/
def process_base64_image (decode : String → Option (List Nat))
    (base64_data : String) : Option String :=
  let stripped? : Option String :=
    if strStarts base64_data "data:" then (base64_data.splitOn ",")[1]?
    else some base64_data
  match stripped? with
  | none => none
  | some d =>
    match decode d with
    | none => none
    | some image_bytes =>
      if image_bytes.length > 5 * 1024 * 1024 then none else some d

/-- The fixture set of `AltTextGenerator._generate_alt_text_options`,
server.py lines 129-148, `length` values verbatim. -/
def richSuggestions : List AltTextSuggestion :=
  [ { type := "brief",
      text := "Descriptive image relevant to page content",
      length := 42, confidence := 85/100 },
    { type := "moderate",
      text := "Detailed description based on visual analysis and page context",
      length := 68, confidence := 90/100 },
    { type := "detailed",
      text := "Comprehensive description including key visual elements, colors, composition, and contextual relevance to surrounding content",
      length := 134, confidence := 88/100 } ]

/-- The fallback of `_generate_alt_text_options`' exception branch,
server.py line 158 (dead in practice: the body cannot raise). -/
def richFallbackSuggestion : AltTextSuggestion :=
  { type := "fallback", text := "Image description unavailable"
    length := 32, confidence := 50/100 }

/-- `AltTextGenerator._analyze_accessibility_context`, server.py
lines 178-190 (its arguments are unused by the body). -/
def analyze_accessibility_context : AccessibilityAnalysis :=
  { is_decorative := false, contains_text := false
    complexity_level := "moderate", recommended_approach := "descriptive"
    wcag_considerations := some
      [ "Ensure description conveys essential information",
        "Consider if image contains important text that should be transcribed",
        "Evaluate if image is purely decorative" ] }

/-- The fallback suggestion inside `_create_error_response`, server.py
lines 197-204. -/
def errorFallbackSuggestion : AltTextSuggestion :=
  { type := "fallback"
    text := "Image description unavailable - please add manual alt text"
    length := 58, confidence := 0 }

/-- `AltTextGenerator._create_error_response`, server.py lines 192-205. -/
def create_error_response (error_message : String) : AnalysisResult :=
  { success := false, error := some error_message
    alt_suggestions := [errorFallbackSuggestion]
    accessibility_analysis := none, context_used := none }

/-- The external effects `analyze_image` can depend on. -/
structure VisionEnv where
  fetch : Except String HttpContent
  enc : List Nat → String
  decode : String → Option (List Nat)

/-- `AltTextGenerator.analyze_image`, server.py lines 30-66. The contextual
prompt building has no effect on the returned fixtures, and
`_generate_alt_text_options` cannot raise, so the success branch returns
`richSuggestions` unconditionally. -/
def analyze_image (env : VisionEnv) (image_data : String)
    (context : PageContext) : AnalysisResult :=
  let image_input :=
    if strStarts image_data "http" then process_image_url env.fetch env.enc
    else process_base64_image env.decode image_data
  match image_input with
  | none => create_error_response "Invalid image format or size"
  | some _ =>
    { success := true, error := none
      alt_suggestions := richSuggestions
      accessibility_analysis := some analyze_accessibility_context
      context_used := some context }

/-- `handle_call_tool` branch for `generate_alt_text`, server.py
lines 272-283 (arguments read with defaults `""` and `{}`). -/
def handle_generate_alt_text (env : VisionEnv) (args : GenArguments) :
    AnalysisResult :=
  analyze_image env (args.image_data.getD "") (args.context.getD ⟨none, none⟩)

/-- The `current_alt_evaluation` block, server.py lines 292-301. -/
structure AltEvaluation where
  text : String
  length : Nat
  quality_score : Rat
  recommendations : List String
  deriving Repr, DecidableEq

/-- Return value of the `analyze_image_context` tool: the accessibility
analysis dict augmented with `current_alt_evaluation`. -/
structure ContextAnalysis where
  analysis : AccessibilityAnalysis
  current_alt_evaluation : AltEvaluation
  deriving Repr, DecidableEq

/-- Arguments of the `analyze_image_context` tool. -/
structure ContextToolArguments where
  image_data : Option String
  current_alt : Option String
  context : Option PageContext
  deriving Repr, DecidableEq

/-- `handle_call_tool` branch for `analyze_image_context`, server.py
lines 285-308. Python truthiness of `current_alt` is emptiness of the
string after the `.get("current_alt", "")` default. -/
def analyze_image_context (args : ContextToolArguments) : ContextAnalysis :=
  let current_alt := args.current_alt.getD ""
  { analysis := analyze_accessibility_context
    current_alt_evaluation :=
      { text := current_alt
        length := if current_alt == "" then 0 else current_alt.length
        quality_score := if current_alt == "" then 0 else 1/2
        recommendations :=
          [ (if current_alt == "" then "Add descriptive alt text"
             else "Consider more descriptive language"),
            "Ensure essential information is conveyed",
            "Keep under 125 characters when possible" ] } }

/-- The quality dict built by the `validate_alt_text_quality` branch,
server.py lines 316-322. -/
structure QualityAnalysis where
  alt_text : String
  length : Nat
  quality_score : Rat
  issues : List String
  suggestions : List String
  deriving Repr, DecidableEq

/-- `handle_call_tool` branch for `validate_alt_text_quality`, server.py
lines 310-340: the score formula of line 319 and the threshold chain of
lines 325-333. -/
def validate_alt_text_quality (alt_text : String) : QualityAnalysis :=
  let base : QualityAnalysis :=
    { alt_text := alt_text, length := alt_text.length
      quality_score :=
        if alt_text == "" then 0 else pymin 1 ((alt_text.length : Rat) / 50)
      issues := [], suggestions := [] }
  if alt_text == "" then
    { base with issues := ["Missing alt text"]
                suggestions := ["Add descriptive alt text"] }
  else if alt_text.length < 10 then
    { base with issues := ["Alt text too brief"]
                suggestions := ["Provide more descriptive detail"] }
  else if alt_text.length > 125 then
    { base with issues := ["Alt text may be too long"]
                suggestions := ["Consider condensing to essential information"] }
  else base

/-- One iteration of the minimal server's read loop, simple_server.py
lines 163-178: a blank line is skipped, a line the parser rejects is only
logged, and every parsed message is handled and its response printed.
`parse` abstracts `json.loads` (with `none` for `JSONDecodeError`). -/
def process_line (parse : String → Option Message) (line : String) :
    Option Response :=
  if strStrip line == "" then none
  else
    match parse line with
    | none => none
    | some message => some (handle_message message)

/-! Helper lemmas. -/

theorem pymin_eq_min (a b : Rat) : pymin a b = min a b := by
  rw [pymin, min_def]

theorem quality_score_eq (s : String) :
    (validate_alt_text_quality s).quality_score =
      if s == "" then 0 else pymin 1 ((s.length : Rat) / 50) := by
  simp only [validate_alt_text_quality]
  split
  · rfl
  · split
    · rfl
    · split <;> rfl

/-- C2: for every non-empty alt_text the validate_alt_text_quality handler
returns quality_score exactly min(1, character count / 50), and for the
empty string it returns exactly 0. -/
theorem C2_quality_score_exact (s : String) (h : s ≠ "") :
    (validate_alt_text_quality s).quality_score =
      min 1 ((s.length : Rat) / 50) ∧
    (validate_alt_text_quality "").quality_score = 0 := by
  refine ⟨?_, ?_⟩
  · rw [quality_score_eq, pymin_eq_min, if_neg]
    simp [h]
  · rw [quality_score_eq]
    rfl

theorem C2_quality_score_exact_witness :
    (validate_alt_text_quality "hello").quality_score =
      min 1 ((("hello").length : Rat) / 50) ∧
    (validate_alt_text_quality "").quality_score = 0 :=
  C2_quality_score_exact "hello" (by decide)

/-- C3: the claim that every returned suggestion has length equal to the
character count of its text is violated by the fixtures: under an
ecommerce context the minimal server's suggestions carry hardcoded
lengths 35/65/115 while the texts have 34/65/109 characters, the generic
set carries 42/75/125 against 42/71/117, and the rich server's set
carries 42/68/134 against 42/62/125. Only the error-envelope fallback is
consistent (58 = 58). The field is evidently meant to be derived from the
text (three fixtures match exactly), so the mismatched values are code
slips. -/
theorem C3_length_fields_diverge :
    (generate_alt_text ⟨none, some ⟨none, some "ecommerce"⟩⟩).alt_suggestions.map
        (fun s => s.length) = [35, 65, 115] ∧
    (generate_alt_text ⟨none, some ⟨none, some "ecommerce"⟩⟩).alt_suggestions.map
        (fun s => s.text.length) = [34, 65, 109] ∧
    (generate_alt_text ⟨none, none⟩).alt_suggestions.map
        (fun s => s.length) = [42, 75, 125] ∧
    (generate_alt_text ⟨none, none⟩).alt_suggestions.map
        (fun s => s.text.length) = [42, 71, 117] ∧
    richSuggestions.map (fun s => s.length) = [42, 68, 134] ∧
    richSuggestions.map (fun s => s.text.length) = [42, 62, 125] ∧
    errorFallbackSuggestion.length = errorFallbackSuggestion.text.length := by
  decide

/-- C4: the issues and suggestions lists of validate_alt_text_quality are
built by exact mutually exclusive thresholds: empty, then length below
10, then length above 125, otherwise both lists empty. -/
theorem C4_issue_thresholds (s : String) :
    (validate_alt_text_quality s).issues =
      (if s = "" then ["Missing alt text"]
       else if s.length < 10 then ["Alt text too brief"]
       else if s.length > 125 then ["Alt text may be too long"]
       else []) ∧
    (validate_alt_text_quality s).suggestions =
      (if s = "" then ["Add descriptive alt text"]
       else if s.length < 10 then ["Provide more descriptive detail"]
       else if s.length > 125 then ["Consider condensing to essential information"]
       else []) := by
  simp only [validate_alt_text_quality]
  by_cases hs : s = ""
  · simp [hs]
  · by_cases h10 : s.length < 10
    · simp [hs, h10]
    · by_cases h125 : 125 < s.length <;> simp [hs, h10, h125]

/-- C8: the current_alt_evaluation block of analyze_image_context has
length equal to the character count of current_alt (with absent read as
the empty string), quality_score one half exactly when current_alt is
non-empty and zero otherwise, and a first recommendation chosen by the
same emptiness test. -/
theorem C8_current_alt_evaluation (args : ContextToolArguments) :
    (analyze_image_context args).current_alt_evaluation.length =
      (args.current_alt.getD "").length ∧
    (analyze_image_context args).current_alt_evaluation.quality_score =
      (if args.current_alt.getD "" = "" then 0 else 1/2) ∧
    (analyze_image_context args).current_alt_evaluation.recommendations[0]? =
      some (if args.current_alt.getD "" = "" then "Add descriptive alt text"
            else "Consider more descriptive language") := by
  simp only [analyze_image_context]
  by_cases hs : args.current_alt.getD "" = "" <;> simp [hs]

theorem listIsPre_self (l : List Char) : listIsPre l l = true := by
  induction l with
  | nil => rfl
  | cons a t ih => simp [listIsPre, ih]

theorem listHasSub_append_self (pre s : List Char) :
    listHasSub s (pre ++ s) = true := by
  induction pre with
  | nil =>
    cases s with
    | nil => rfl
    | cons a t => simp [listHasSub, listIsPre_self]
  | cons a pre ih => simp [listHasSub, ih]

theorem strHasSub_append_self (pre s : String) :
    strHasSub s (pre ++ s) = true := by
  rw [strHasSub, String.data_append]
  exact listHasSub_append_self pre.data s.data

theorem handle_message_id (message : Message) :
    (handle_message message).id = message.id := by
  simp only [handle_message]
  by_cases h1 : message.method == some "initialize"
  · simp [h1]
  · by_cases h2 : message.method == some "tools/list"
    · simp [h1, h2]
    · by_cases h3 : message.method == some "tools/call"
      · by_cases h4 :
          (message.params.getD ⟨none, none⟩).name == some "generate_alt_text"
        · simp [h1, h2, h3, h4]
        · simp [h1, h2, h3, h4]
      · simp [h1, h2, h3]

/-- C1 as stated quantifies over every generate_alt_text tool handler, but
the rich server's handler ignores the context signals: with an ecommerce
page topic and a valid image it returns its own fixed suggestion set, not
the product-themed one. -/
theorem C1_counterexample :
    (handle_generate_alt_text
        { fetch := .ok { status := 200, content_type := "image/jpeg", content := [137] }
          enc := fun _ => "iQ==", decode := fun _ => some [137] }
        ⟨some "https://shop.example/p.jpg", some ⟨none, some "ecommerce"⟩⟩).alt_suggestions.map
        (fun s => s.text) =
      richSuggestions.map (fun s => s.text) ∧
    richSuggestions.map (fun s => s.text) ≠
      productSuggestions.map (fun s => s.text) := by
  constructor
  · decide
  · decide

/-- C1 amended: the minimal server's handler branches exactly as the claim
states (product set on the title/topic signal, generic set otherwise, both
of exactly 3 suggestions typed brief, moderate, detailed in order), while
the rich server's handler never consults the context for its suggestions:
it returns its fixed 3-suggestion set (same type order) whenever image
normalization succeeds, and the single fallback suggestion otherwise. -/
theorem C1_amended :
    (∀ args : GenArguments,
      (generate_alt_text args).alt_suggestions =
        (if productSignal (args.context.getD ⟨none, none⟩) then productSuggestions
         else genericSuggestions)) ∧
    productSuggestions.map (fun s => s.type) = ["brief", "moderate", "detailed"] ∧
    genericSuggestions.map (fun s => s.type) = ["brief", "moderate", "detailed"] ∧
    richSuggestions.map (fun s => s.type) = ["brief", "moderate", "detailed"] ∧
    (∀ (env : VisionEnv) (args : GenArguments),
      (handle_generate_alt_text env args).alt_suggestions = richSuggestions ∨
      (handle_generate_alt_text env args).alt_suggestions = [errorFallbackSuggestion]) := by
  refine ⟨fun args => rfl, by decide, by decide, by decide, fun env args => ?_⟩
  simp only [handle_generate_alt_text, analyze_image]
  rcases h : (if strStarts (args.image_data.getD "") "http"
      then process_image_url env.fetch env.enc
      else process_base64_image env.decode (args.image_data.getD "")) with _ | v
  · right
    rfl
  · left
    rfl

/-- C5: every message with an id receives exactly one response carrying the
same id, holding a result field or an error field but never both. -/
theorem C5_same_id_result_xor_error (message : Message) (i : JsonId)
    (h : message.id = some i) :
    (handle_message message).id = some i ∧
    (((handle_message message).result.isSome = true ∧
        (handle_message message).error = none) ∨
     ((handle_message message).result = none ∧
        (handle_message message).error.isSome = true)) := by
  refine ⟨by rw [handle_message_id, h], ?_⟩
  simp only [handle_message]
  by_cases h1 : message.method == some "initialize"
  · simp [h1]
  · by_cases h2 : message.method == some "tools/list"
    · simp [h1, h2]
    · by_cases h3 : message.method == some "tools/call"
      · by_cases h4 :
          (message.params.getD ⟨none, none⟩).name == some "generate_alt_text"
        · simp [h1, h2, h3, h4]
        · simp [h1, h2, h3, h4]
      · simp [h1, h2, h3]

theorem C5_same_id_result_xor_error_witness :
    (handle_message ⟨some (.num 1), some "initialize", none⟩).id =
      some (.num 1) ∧
    (((handle_message ⟨some (.num 1), some "initialize", none⟩).result.isSome = true ∧
        (handle_message ⟨some (.num 1), some "initialize", none⟩).error = none) ∨
     ((handle_message ⟨some (.num 1), some "initialize", none⟩).result = none ∧
        (handle_message ⟨some (.num 1), some "initialize", none⟩).error.isSome = true)) :=
  C5_same_id_result_xor_error ⟨some (.num 1), some "initialize", none⟩ (.num 1) rfl

/-- C6: an unrecognized method with an id yields an error response with
code -32601, the same id, and a message containing the method name. -/
theorem C6_unknown_method_error (message : Message) (m : String) (i : JsonId)
    (hm : message.method = some m)
    (h1 : m ≠ "initialize") (h2 : m ≠ "tools/list") (h3 : m ≠ "tools/call")
    (hid : message.id = some i) :
    (handle_message message).id = some i ∧
    (handle_message message).error =
      some { code := -32601, message := "Method not found: " ++ m } ∧
    (handle_message message).result = none ∧
    strHasSub m ("Method not found: " ++ m) = true := by
  refine ⟨by rw [handle_message_id, hid], ?_, ?_, strHasSub_append_self _ m⟩
  · simp [handle_message, hm, methodText, h1, h2, h3]
  · simp [handle_message, hm, h1, h2, h3]

theorem C6_unknown_method_error_witness :
    (handle_message ⟨some (.num 7), some "bogus", none⟩).id = some (.num 7) ∧
    (handle_message ⟨some (.num 7), some "bogus", none⟩).error =
      some { code := -32601, message := "Method not found: " ++ "bogus" } ∧
    (handle_message ⟨some (.num 7), some "bogus", none⟩).result = none ∧
    strHasSub "bogus" ("Method not found: " ++ "bogus") = true :=
  C6_unknown_method_error ⟨some (.num 7), some "bogus", none⟩ "bogus" (.num 7)
    rfl (by decide) (by decide) (by decide) rfl

/-- C7: the image normalization helpers return none on fetch faults,
disallowed media types, oversize payloads and decode faults, and
analyze_image turns a none normalization result into the standardized
error envelope with success false and a single fallback suggestion of
confidence 0. -/
theorem C7_normalization_faults_to_error_envelope :
    (∀ (e : String) (enc : List Nat → String),
      process_image_url (.error e) enc = none) ∧
    (∀ (r : HttpContent) (enc : List Nat → String),
      5 * 1024 * 1024 < r.content.length →
      process_image_url (.ok r) enc = none) ∧
    (∀ (r : HttpContent) (enc : List Nat → String),
      (∀ fmt ∈ supported_formats, strHasSub fmt r.content_type = false) →
      process_image_url (.ok r) enc = none) ∧
    (∀ (decode : String → Option (List Nat)) (data : String),
      (∀ s, decode s = none) →
      process_base64_image decode data = none) ∧
    (∀ (decode : String → Option (List Nat)) (data : String),
      (∀ s b, decode s = some b → 5 * 1024 * 1024 < b.length) →
      process_base64_image decode data = none) ∧
    (∀ (env : VisionEnv) (image_data : String) (context : PageContext),
      (if strStarts image_data "http"
       then process_image_url env.fetch env.enc
       else process_base64_image env.decode image_data) = none →
      analyze_image env image_data context =
        create_error_response "Invalid image format or size" ∧
      (analyze_image env image_data context).success = false ∧
      (analyze_image env image_data context).alt_suggestions =
        [errorFallbackSuggestion] ∧
      errorFallbackSuggestion.confidence = 0) := by
  refine ⟨fun e enc => rfl, ?_, ?_, ?_, ?_, ?_⟩
  · intro r enc hsize
    simp only [process_image_url]
    split
    · rfl
    · split
      · rfl
      · simp [hsize]
  · intro r enc hfmt
    have hany : supported_formats.any
        (fun fmt => strHasSub fmt r.content_type) = false := by
      rw [List.any_eq_false]
      intro fmt hmem
      simp [hfmt fmt hmem]
    simp only [process_image_url]
    split
    · rfl
    · rw [if_pos (by simp [hany])]
  · intro decode data hdec
    simp only [process_base64_image]
    split
    · rfl
    · rename_i d heq
      rw [hdec d]
  · intro decode data hdec
    simp only [process_base64_image]
    split
    · rfl
    · rename_i d heq
      cases h2 : decode d with
      | none => rfl
      | some b => simp [hdec d b h2]
  · intro env image_data context hnorm
    have he : analyze_image env image_data context =
        create_error_response "Invalid image format or size" := by
      simp only [analyze_image]
      rw [hnorm]
    exact ⟨he, by rw [he]; rfl, by rw [he]; rfl, rfl⟩

theorem C7_normalization_faults_to_error_envelope_witness :
    process_image_url (.error "connection reset") (fun _ => "") = none ∧
    process_image_url
      (.ok { status := 200, content_type := "image/png"
             content := List.replicate (5 * 1024 * 1024 + 1) 0 })
      (fun _ => "") = none ∧
    process_image_url
      (.ok { status := 200, content_type := "text/html", content := [] })
      (fun _ => "") = none ∧
    process_base64_image (fun _ => none) "QUJD" = none ∧
    analyze_image
      { fetch := .error "timeout", enc := fun _ => "", decode := fun _ => none }
      "https://example.com/a.png" ⟨none, none⟩ =
      create_error_response "Invalid image format or size" ∧
    (analyze_image
      { fetch := .error "timeout", enc := fun _ => "", decode := fun _ => none }
      "https://example.com/a.png" ⟨none, none⟩).success = false ∧
    (analyze_image
      { fetch := .error "timeout", enc := fun _ => "", decode := fun _ => none }
      "https://example.com/a.png" ⟨none, none⟩).alt_suggestions =
      [errorFallbackSuggestion] ∧
    errorFallbackSuggestion.confidence = 0 := by
  refine ⟨C7_normalization_faults_to_error_envelope.1 "connection reset" _,
    C7_normalization_faults_to_error_envelope.2.1 _ _
      (by rw [List.length_replicate]; exact Nat.lt_succ_self _),
    C7_normalization_faults_to_error_envelope.2.2.1 _ _ (by decide),
    C7_normalization_faults_to_error_envelope.2.2.2.1 _ "QUJD" (fun s => rfl),
    C7_normalization_faults_to_error_envelope.2.2.2.2.2 _ _ ⟨none, none⟩ rfl⟩

/-- C9: calling generate_alt_text through tools/call with no image_data key
is not rejected: the handler substitutes the empty-string default, the
response is a success result, and the schema-declared required key is
never enforced at dispatch time. -/
theorem C9_required_key_not_enforced (i : JsonId) (ctx : Option PageContext) :
    (handle_message ⟨some i, some "tools/call",
        some ⟨some "generate_alt_text", some ⟨none, ctx⟩⟩⟩).result =
      some (.callResult (generate_alt_text ⟨none, ctx⟩)) ∧
    (handle_message ⟨some i, some "tools/call",
        some ⟨some "generate_alt_text", some ⟨none, ctx⟩⟩⟩).error = none ∧
    (generate_alt_text ⟨none, ctx⟩).success = true ∧
    generate_alt_text ⟨none, ctx⟩ = generate_alt_text ⟨some "", ctx⟩ ∧
    simpleTools.map (fun t => t.required) = [["image_data"]] :=
  ⟨rfl, rfl, rfl, rfl, rfl⟩

/-- C10: every parsed message is answered: a non-blank line the parser
accepts makes the loop print exactly the handler's response, and a message
with no id gets a response whose id is null. -/
theorem C10_notification_still_answered (parse : String → Option Message)
    (line : String) (message : Message)
    (hline : strStrip line ≠ "") (hparse : parse line = some message)
    (hid : message.id = none) :
    process_line parse line = some (handle_message message) ∧
    (handle_message message).id = none := by
  constructor
  · simp only [process_line]
    rw [if_neg (by simp [hline]), hparse]
  · rw [handle_message_id, hid]

theorem C10_notification_still_answered_witness :
    process_line
      (fun l => if l = "n" then some ⟨none, some "initialize", none⟩ else none)
      "n" = some (handle_message ⟨none, some "initialize", none⟩) ∧
    (handle_message ⟨none, some "initialize", none⟩).id = none :=
  C10_notification_still_answered
    (fun l => if l = "n" then some ⟨none, some "initialize", none⟩ else none)
    "n" ⟨none, some "initialize", none⟩ (by decide) rfl rfl

end AltText
